import Mathlib

/-!
Verification of the risk-managed futures position engine (Real_trading.py and
Real_Trading_Websocket.py) against its natural-language specification.

All monetary quantities and prices are modelled as rationals; Python floats
carry no claim-relevant rounding here, except where noted (NaN propagation is
modelled explicitly with Option, none standing for NaN).
-/

namespace Goat2

/-! ## TradingConfig (Real_trading.py lines 79-107) -/

namespace TradingConfig

def MAX_POSITIONS : Nat := 3

def MIN_VOLUME_USD : ℚ := 1000000

def MAX_SPREAD_PERCENT : ℚ := 1/10

def LEVERAGE : ℚ := 3

def MIN_STOP_LOSS : ℚ := 1/2

def MAX_STOP_LOSS : ℚ := 5

def ATR_MULTIPLIER : ℚ := 2

def RISK_PER_TRADE : ℚ := 1/100

/-- Source constant PARTIAL_CLOSE_LEVELS: ordered ladder of
(profit percent, close fraction) pairs: [(1.0, 0.3), (1.5, 0.3), (2.0, 0.4)]. -/
def CLOSE_LEVELS : List (ℚ × ℚ) := [(1, 3/10), (3/2, 3/10), (2, 2/5)]

/-- TradingConfig.calculate_position_size (lines 101-107):
risk_amount / price_diff_percent * LEVERAGE. -/
def calculate_position_size (balance entry_price stop_loss_price : ℚ) : ℚ :=
  let price_diff_percent := |entry_price - stop_loss_price| / entry_price * 100
  let risk_amount := balance * RISK_PER_TRADE
  (risk_amount / price_diff_percent) * LEVERAGE

end TradingConfig

/-- Module-level static defaults (lines 70-71). -/
def STOP_LOSS_PERCENT : ℚ := 2

def TAKE_PROFIT_PERCENT : ℚ := 2

/-- RiskManager.validate_position_size (lines 289-291): cap at 10% of balance. -/
def validate_position_size (position_size balance : ℚ) : ℚ :=
  min position_size (balance * (1/10))

/-! ## Dynamic stops (RiskManager.calculate_dynamic_stops, lines 143-170)

The source works on a pandas DataFrame of OHLC bars; only the high/low/close
columns are read. `rolling(14).mean()` yields NaN until 14 observations exist;
NaN is modelled as `none` and propagated through Python's min/max exactly as
CPython does (min(a,b) returns b only when b < a, so a leading NaN survives
both the min and the max of the clamp). -/

structure Bar where
  high : ℚ
  low : ℚ
  close : ℚ
deriving DecidableEq

/-- True ranges for bars after the first: max(high-low, |high-prev_close|, |low-prev_close|). -/
def trueRangesAux (prev_close : ℚ) : List Bar → List ℚ
  | [] => []
  | b :: bs =>
      max (b.high - b.low) (max |b.high - prev_close| |b.low - prev_close|) ::
        trueRangesAux b.close bs

/-- Per-bar true range series. The first bar has no previous close (shift()
produces NaN there) and pandas max skips NaN, so its TR is high-low. -/
def trueRanges : List Bar → List ℚ
  | [] => []
  | b :: bs => (b.high - b.low) :: trueRangesAux b.close bs

/-- Last value of rolling(w).mean(): mean of the final w entries if at least w
exist, NaN (none) otherwise. -/
def rollingMeanLast (w : Nat) (xs : List ℚ) : Option ℚ :=
  if w ≤ xs.length then some ((xs.drop (xs.length - w)).sum / (w : ℚ)) else none

/-- Python min with NaN (none) semantics: min(a,b) keeps a unless b < a, so a
NaN first argument propagates and a NaN second argument is dropped. -/
def pymin (a b : Option ℚ) : Option ℚ :=
  match a, b with
  | none, _ => none
  | some x, none => some x
  | some x, some y => some (min x y)

/-- Python max with NaN (none) semantics, mirror of pymin. -/
def pymax (a b : Option ℚ) : Option ℚ :=
  match a, b with
  | none, _ => none
  | some x, none => some x
  | some x, some y => some (max x y)

/-- RiskManager.calculate_dynamic_stops. An empty history raises IndexError at
iloc[-1], which the except handler turns into the static fallback pair.
A non-empty history shorter than 14 bars gives a NaN ATR that propagates
through the clamp (no exception is raised). Division by the last close is the
source's float division; the theorems below assume a nonzero last close (a
zero close would give inf/NaN in numpy, outside this model). -/
def calculate_dynamic_stops (df : List Bar) : Option ℚ × Option ℚ :=
  match df.getLast? with
  | none => (some STOP_LOSS_PERCENT, some TAKE_PROFIT_PERCENT)
  | some lastBar =>
      let atr := rollingMeanLast 14 (trueRanges df)
      let current_price := lastBar.close
      let raw := atr.map (fun a => a * TradingConfig.ATR_MULTIPLIER / current_price * 100)
      let slp := pymax (pymin raw (some TradingConfig.MAX_STOP_LOSS))
        (some TradingConfig.MIN_STOP_LOSS)
      (slp, slp.map (fun s => s * (3/2)))

/-! ## Positions and trailing stops (Real_trading.py lines 109-223, 403-409) -/

/-- An entry of RiskManager.open_positions (dict recorded at lines 403-409). -/
structure Position where
  side : String
  quantity : ℚ
  entry_price : ℚ
  stop_loss : ℚ
  take_profit : ℚ
deriving DecidableEq

/-- An entry of RiskManager.trailing_stops (dict created at lines 196-200). -/
structure TrailingStop where
  highest_price : ℚ
  stop_price : ℚ
  distance_percent : ℚ
deriving DecidableEq

/-- RiskManager.update_trailing_stop (lines 189-211) for a symbol whose
position is open. `none` for the trailing argument means the symbol is not yet
in the trailing_stops dict. The stop-order replacement side effect is not
modelled; only the trailing_stops entry it keeps. -/
def update_trailing_stop (position : Position) (tr : Option TrailingStop)
    (current_price : ℚ) : TrailingStop :=
  match tr with
  | none =>
      { highest_price := current_price
        stop_price := position.stop_loss
        distance_percent := |current_price - position.stop_loss| / current_price * 100 }
  | some trailing =>
      if position.side = "long" then
        if trailing.highest_price < current_price then
          let new_stop := current_price * (1 - trailing.distance_percent / 100)
          if trailing.stop_price < new_stop then
            { highest_price := current_price
              stop_price := new_stop
              distance_percent := trailing.distance_percent }
          else
            { highest_price := current_price
              stop_price := trailing.stop_price
              distance_percent := trailing.distance_percent }
        else trailing
      else trailing

/-- The trailing_stops entry after a sequence of ticks, starting with no entry. -/
def run_trailing (position : Position) (ticks : List ℚ) : Option TrailingStop :=
  ticks.foldl (fun tr p => some (update_trailing_stop position tr p)) none

/-- One tick applied to an already-initialized trailing stop. -/
def trail_step (position : Position) (tr : TrailingStop) (p : ℚ) : TrailingStop :=
  update_trailing_stop position (some tr) p

/-- A tick sequence applied to an already-initialized trailing stop. -/
def trail_run (position : Position) (tr : TrailingStop) (ticks : List ℚ) : TrailingStop :=
  ticks.foldl (trail_step position) tr

/-! ## Price alerts (lines 178-187, 213-223) -/

/-- An entry of a RiskManager.price_alerts list. -/
structure PriceAlert where
  price : ℚ
  direction : String
  message : String
  triggered : Bool
deriving DecidableEq

/-- RiskManager.add_price_alert (lines 178-187) appends this record,
always with triggered = False. -/
def add_price_alert (price : ℚ) (direction message : String) : PriceAlert :=
  { price := price, direction := direction, message := message, triggered := false }

/-- The per-alert body of RiskManager.check_price_alerts (lines 216-223):
only directions "above" and "below" can mark an alert triggered. -/
def check_alert (current_price : ℚ) (alert : PriceAlert) : PriceAlert :=
  if alert.triggered = false ∧
      ((alert.direction = "above" ∧ alert.price < current_price) ∨
       (alert.direction = "below" ∧ current_price < alert.price)) then
    { alert with triggered := true }
  else alert

/-- RiskManager.check_price_alerts over a symbol's alert list. -/
def check_price_alerts (alerts : List PriceAlert) (current_price : ℚ) : List PriceAlert :=
  alerts.map (check_alert current_price)

/-- check_price_alerts applied over a sequence of ticks. -/
def run_price_alerts (alerts : List PriceAlert) (prices : List ℚ) : List PriceAlert :=
  prices.foldl check_price_alerts alerts

/-! ## The partial-close ladder path of handle_socket_message (lines 489-499)

The loop walks TradingConfig.PARTIAL_CLOSE_LEVELS in list (= ascending profit)
order and on the first level whose threshold is met calls
risk_manager.partial_close_position(symbol, close_amount). RiskManager defines
no method of that name, so Python attribute lookup raises AttributeError; the
catch-all except at line 527 swallows it. -/

/-- The methods the RiskManager class body defines (lines 109-291). -/
def risk_manager_methods : List String :=
  ["__init__", "check_entry_conditions", "calculate_dynamic_stops",
   "update_trade_stats", "add_price_alert", "update_trailing_stop",
   "check_price_alerts", "update_stop_loss_order", "check_margin_usage",
   "set_leverage", "calculate_liquidation_price", "validate_position_size"]

/-- Python exceptions distinguished by the model. -/
inductive PyError
  | attrError
deriving DecidableEq

/-- Signed pnl percent computed at lines 492-493. -/
def pnl_percent (position : Position) (price : ℚ) : ℚ :=
  (price - position.entry_price) / position.entry_price * 100 *
    (if position.side = "long" then 1 else -1)

/-- First ladder level (in list order) whose profit threshold is met. -/
def find_level (pnl : ℚ) : List (ℚ × ℚ) → Option (ℚ × ℚ)
  | [] => none
  | l :: ls => if l.1 ≤ pnl then some l else find_level pnl ls

/-- The attempted call risk_manager.partial_close_position(symbol, amount):
attribute lookup on the RiskManager instance. The ok branch is dead code
because the class defines no such method. -/
def ladder_close_call (_symbol : String) (_close_amount : ℚ) : Except PyError Unit :=
  if risk_manager_methods.contains "partial_close_position" then Except.ok ()
  else Except.error PyError.attrError

/-- Lines 495-499: walk the ladder, call the close on the first met level. -/
def ladder_step (symbol : String) (position : Position) (price : ℚ) :
    Except PyError (Position × List ℚ) :=
  match find_level (pnl_percent position price) TradingConfig.CLOSE_LEVELS with
  | none => Except.ok (position, [])
  | some level =>
      let close_amount := position.quantity * level.2
      match ladder_close_call symbol close_amount with
      | Except.ok _ => Except.ok (position, [close_amount])
      | Except.error e => Except.error e

/-- The ladder path as the tick handler runs it: the catch-all except at line
527 absorbs any exception, leaving the position and emitting no close.
Returns the (unchanged) position and the list of close amounts submitted. -/
def ladder_tick (symbol : String) (position : Position) (price : ℚ) :
    Position × List ℚ :=
  match ladder_step symbol position price with
  | Except.ok r => r
  | Except.error _ => (position, [])

/-! ## Entry gating (lines 119-141, 254-261, 330-343, 508-515)

Exchange fetches are injected as Option values: none models a fetch that
raises (caught by the surrounding except, which returns False — fail-closed).
A trace of which checks were evaluated, in evaluation order, is returned
alongside the boolean so evaluation order is part of the embedding. -/

inductive CheckTag
  | volatility
  | margin
  | posCount
  | volume
  | spread
deriving DecidableEq

/-- Exchange data the gate may fetch: futures_ticker as (volume, lastPrice),
futures_order_book as (best_ask, best_bid), futures_account as
(totalMarginBalance, totalWalletBalance). -/
structure ExchangeData where
  ticker_volume : Option (ℚ × ℚ)
  order_book : Option (ℚ × ℚ)
  account : Option (ℚ × ℚ)
deriving DecidableEq

/-- RiskManager.check_entry_conditions (lines 119-141): position count, 24h
volume, spread, in that order, any exception → False. A zero best bid raises
ZeroDivisionError, likewise caught. -/
def check_entry_conditions (open_count : Nat) (data : ExchangeData) :
    Bool × List CheckTag :=
  if TradingConfig.MAX_POSITIONS ≤ open_count then (false, [CheckTag.posCount])
  else
    match data.ticker_volume with
    | none => (false, [CheckTag.posCount, CheckTag.volume])
    | some vp =>
        if vp.1 * vp.2 < TradingConfig.MIN_VOLUME_USD then
          (false, [CheckTag.posCount, CheckTag.volume])
        else
          match data.order_book with
          | none => (false, [CheckTag.posCount, CheckTag.volume, CheckTag.spread])
          | some ab =>
              if ab.2 = 0 then
                (false, [CheckTag.posCount, CheckTag.volume, CheckTag.spread])
              else if TradingConfig.MAX_SPREAD_PERCENT < (ab.1 - ab.2) / ab.2 * 100 then
                (false, [CheckTag.posCount, CheckTag.volume, CheckTag.spread])
              else (true, [CheckTag.posCount, CheckTag.volume, CheckTag.spread])

/-- RiskManager.check_margin_usage (lines 254-261): margin ratio at most 0.8;
fetch failure or a zero wallet balance (ZeroDivisionError) → False. -/
def check_margin_usage (data : ExchangeData) : Bool :=
  match data.account with
  | none => false
  | some mw =>
      if mw.2 = 0 then false
      else decide (mw.1 / mw.2 ≤ 4/5)

/-- The open_position part of the gate (lines 330-343): margin first, then
(after the set_leverage side effect, whose errors are swallowed) the entry
conditions. -/
def entry_gate_rest (open_count : Nat) (data : ExchangeData) : Bool × List CheckTag :=
  if check_margin_usage data then
    let r := check_entry_conditions open_count data
    (r.1, CheckTag.volatility :: CheckTag.margin :: r.2)
  else (false, [CheckTag.volatility, CheckTag.margin])

/-- The full pre-entry pipeline a tick traverses before an order is placed:
handle_socket_message's volatility guard (lines 508-513; an unknown volatility
passes) followed by open_position's margin check and check_entry_conditions. -/
def entry_gate (volatility : Option ℚ) (open_count : Nat) (data : ExchangeData) :
    Bool × List CheckTag :=
  match volatility with
  | some v =>
      if 100 < v then (false, [CheckTag.volatility])
      else entry_gate_rest open_count data
  | none => entry_gate_rest open_count data

/-- Modelled from the spec: the claim's `can_enter` evaluating, in the claim's
order and short-circuiting, (1) position count, (2) volume, (3) spread,
(4) margin ratio, (5) volatility, fail-closed on fetch failure. Written for
comparison with entry_gate, which embeds the source. -/
def can_enter_spec (volatility : Option ℚ) (open_count : Nat) (data : ExchangeData) :
    Bool × List CheckTag :=
  if TradingConfig.MAX_POSITIONS ≤ open_count then (false, [CheckTag.posCount])
  else
    match data.ticker_volume with
    | none => (false, [CheckTag.posCount, CheckTag.volume])
    | some vp =>
        if vp.1 * vp.2 < TradingConfig.MIN_VOLUME_USD then
          (false, [CheckTag.posCount, CheckTag.volume])
        else
          match data.order_book with
          | none => (false, [CheckTag.posCount, CheckTag.volume, CheckTag.spread])
          | some ab =>
              if ab.2 = 0 ∨ TradingConfig.MAX_SPREAD_PERCENT < (ab.1 - ab.2) / ab.2 * 100 then
                (false, [CheckTag.posCount, CheckTag.volume, CheckTag.spread])
              else
                match data.account with
                | none => (false, [CheckTag.posCount, CheckTag.volume, CheckTag.spread,
                    CheckTag.margin])
                | some mw =>
                    if mw.2 = 0 ∨ 4/5 < mw.1 / mw.2 then
                      (false, [CheckTag.posCount, CheckTag.volume, CheckTag.spread,
                        CheckTag.margin])
                    else
                      let full := [CheckTag.posCount, CheckTag.volume, CheckTag.spread,
                        CheckTag.margin, CheckTag.volatility]
                      match volatility with
                      | some v => if 100 < v then (false, full) else (true, full)
                      | none => (true, full)

/-! ## PriceFeed reconnection (Real_Trading_Websocket.py lines 29-30, 123-149)

start_symbol_ticker_socket resets reconnect_attempts to 0 at the top of its
try block before attempting the subscription; on failure it calls
reconnect_websocket, which increments the counter, gives up with a
max-attempts-exceeded notification when the counter exceeds
MAX_RECONNECT_ATTEMPTS, and otherwise restarts the manager and re-enters
start_symbol_ticker_socket. -/

def MAX_RECONNECT_ATTEMPTS : Nat := 5

structure FeedState where
  reconnect_attempts : Nat
  failed_notices : Nat
  gave_up : Bool
deriving DecidableEq

/-- feed_run n s: the state after n consecutive connection failures starting
from a call to start_symbol_ticker_socket in state s, with the (n+1)-th
attempt succeeding. Each re-entry of start_symbol_ticker_socket resets the
counter before the attempt, exactly as the source does. -/
def feed_run : Nat → FeedState → FeedState
  | 0, s => { s with reconnect_attempts := 0 }
  | n + 1, s =>
      let s1 : FeedState := { s with reconnect_attempts := 0 }
      let s2 : FeedState := { s1 with reconnect_attempts := s1.reconnect_attempts + 1 }
      if MAX_RECONNECT_ATTEMPTS < s2.reconnect_attempts then
        { s2 with failed_notices := s2.failed_notices + 1, gave_up := true }
      else feed_run n s2

/-! ## open_position (Real_trading.py lines 330-412)

All gateway calls are injected outcomes. Everything from the margin check to
the registry insert sits in one try block, so the first raising call skips the
rest, including the open_positions insert at lines 403-409. -/

/-- An order submitted to futures_create_order. -/
structure Order where
  symbol : String
  side : String
  order_type : String
  quantity : ℚ
  stop_price : Option ℚ
deriving DecidableEq

/-- Outcomes of the exchange calls open_position makes, in call order: a false
order field means that futures_create_order call raised. tick_size none covers
both a get_tick_size failure and its None return, each of which makes
round_price raise. -/
structure OpenCalls where
  margin_ok : Bool
  entry_ok : Bool
  balance : ℚ
  stops : ℚ × ℚ
  entry_order_ok : Bool
  tick_size : Option ℚ
  sl_order_ok : Bool
  tp_order_ok : Bool
deriving DecidableEq

/-- round_price (lines 307-309). Lean's round is half-up while Python's is
half-even; no input in this development sits on a half boundary. -/
def round_price (price tick_size : ℚ) : ℚ :=
  round (price / tick_size) * tick_size

/-- open_position: returns the updated open_positions registry and the orders
actually submitted. A raise anywhere lands in the except at line 411, which
only logs. -/
def open_position (symbol side : String) (price : ℚ) (calls : OpenCalls)
    (open_positions : List (String × Position)) :
    List (String × Position) × List Order :=
  if calls.margin_ok = false then (open_positions, [])
  else if calls.entry_ok = false then (open_positions, [])
  else
    let stop_loss_percent := calls.stops.1
    let take_profit_percent := calls.stops.2
    let current_price := price
    let stop_loss_price := current_price * (1 - stop_loss_percent / 100)
    let take_profit_price := current_price * (1 + take_profit_percent / 100)
    let quantity := validate_position_size
      (TradingConfig.calculate_position_size calls.balance current_price stop_loss_price)
      calls.balance
    if calls.entry_order_ok = false then (open_positions, [])
    else
      let order_side := if side = "long" then "BUY" else "SELL"
      let entry : Order :=
        { symbol := symbol, side := order_side, order_type := "MARKET",
          quantity := quantity, stop_price := none }
      match calls.tick_size with
      | none => (open_positions, [entry])
      | some ts =>
          let sl_price := round_price stop_loss_price ts
          let tp_price := round_price take_profit_price ts
          let stop_order_side := if side = "long" then "SELL" else "BUY"
          if calls.sl_order_ok = false then (open_positions, [entry])
          else
            let slo : Order :=
              { symbol := symbol, side := stop_order_side, order_type := "STOP_MARKET",
                quantity := quantity, stop_price := some sl_price }
            if calls.tp_order_ok = false then (open_positions, [entry, slo])
            else
              let tpo : Order :=
                { symbol := symbol, side := stop_order_side,
                  order_type := "TAKE_PROFIT_MARKET",
                  quantity := quantity, stop_price := some tp_price }
              let pos : Position :=
                { side := side, quantity := quantity,
                  entry_price := current_price, stop_loss := sl_price,
                  take_profit := tp_price }
              ((symbol, pos) :: open_positions, [entry, slo, tpo])

/-! ## PriceAnalyzer (lines 426-466)

np.std of the log-returns is a population standard deviation; volatility is
std * sqrt(20) * 100. Square roots leave the rationals, so the state stores
the square of the volatility: vol = sqrt(volatility_sq), vol = 0 iff
volatility_sq = 0, and the alert condition vol > 100 is exactly
volatility_sq > 10000. np.log is injected as an arbitrary function lg, which
every theorem quantifies over. -/

structure PriceSample where
  price : ℚ
  timestamp : Nat
deriving DecidableEq

/-- The per-symbol analyzer state: price_history[symbol] and
(the square of) volatility[symbol], none while never computed. -/
structure AnalyzerState where
  history : List PriceSample
  volatility_sq : Option ℚ
deriving DecidableEq

/-- The last n elements of a list (Python xs[-n:] for n ≥ 1). -/
def last_n (n : Nat) (xs : List α) : List α :=
  xs.drop (xs.length - n)

/-- Log-returns np.diff(np.log(prices)) with the log function injected. -/
def log_returns (lg : ℚ → ℚ) : List ℚ → List ℚ
  | [] => []
  | [_] => []
  | a :: b :: rest => (lg b - lg a) :: log_returns lg (b :: rest)

def list_mean (xs : List ℚ) : ℚ :=
  xs.sum / (xs.length : ℚ)

/-- Population variance, the square of np.std. -/
def variance_pop (xs : List ℚ) : ℚ :=
  ((xs.map fun x => (x - list_mean xs) ^ 2).sum) / (xs.length : ℚ)

/-- The square of np.std(returns) * np.sqrt(20) * 100. -/
def volatility_sq_of (lg : ℚ → ℚ) (prices : List ℚ) : ℚ :=
  variance_pop (log_returns lg prices) * 20 * 10000

/-- PriceAnalyzer._update_volatility (lines 449-466): with fewer than 20
samples nothing happens; otherwise volatility is recomputed from the last 20
samples' prices and, when it exceeds 100 (squared: 10000), an alert with
direction both is handed to risk_manager.add_price_alert. The formatted
message text is abstracted to a constant. -/
def update_volatility (lg : ℚ → ℚ) (st : AnalyzerState) :
    AnalyzerState × List PriceAlert :=
  if st.history.length < 20 then (st, [])
  else
    let prices := last_n 20 (st.history.map PriceSample.price)
    let v := volatility_sq_of lg prices
    let st2 : AnalyzerState := { st with volatility_sq := some v }
    if 10000 < v then
      (st2, [add_price_alert (prices.getLastD 0) "both" "high volatility"])
    else (st2, [])

/-- The history update of PriceAnalyzer.update_price_data (lines 433-444):
append the sample, keep the last 1000 points. -/
def appended_history (hist : List PriceSample) (price : ℚ) (timestamp : Nat) :
    List PriceSample :=
  let hist1 := hist ++ [{ price := price, timestamp := timestamp }]
  if 1000 < hist1.length then last_n 1000 hist1 else hist1

/-- PriceAnalyzer.update_price_data (lines 433-447): append the sample, keep
the last 1000 points, then update volatility. -/
def update_price_data (lg : ℚ → ℚ) (st : AnalyzerState) (price : ℚ)
    (timestamp : Nat) : AnalyzerState × List PriceAlert :=
  update_volatility lg { st with history := appended_history st.history price timestamp }

/-! ## Theorems -/

/-- Claim C6: validate_position_size caps any size at 10% of balance, and in
the scenario balance=10000, entry=100, stop=98 the raw size is (100/2)*3 = 150
and stays 150 after the cap. -/
theorem position_size_cap_and_scenario :
    (∀ x balance : ℚ, 0 ≤ x → 0 ≤ balance →
      validate_position_size x balance ≤ 1/10 * balance) ∧
    TradingConfig.calculate_position_size 10000 100 98 = 150 ∧
    validate_position_size 150 10000 = 150 := by
  refine ⟨fun x b _ _ => ?_,
    by norm_num [TradingConfig.calculate_position_size, TradingConfig.RISK_PER_TRADE,
      TradingConfig.LEVERAGE, abs_two],
    by norm_num [validate_position_size, min_def]⟩
  calc validate_position_size x b ≤ b * (1/10) := min_le_right _ _
    _ = 1/10 * b := by ring

/-- Witness for position_size_cap_and_scenario at the claim's scenario. -/
theorem position_size_cap_witness :
    validate_position_size 150 10000 ≤ 1/10 * 10000 :=
  position_size_cap_and_scenario.1 150 10000 (by norm_num) (by norm_num)

/-- Claim C7 (evaluation at the failing input): after 6 consecutive connection
failures the counter — reset to 0 at the top of every
start_symbol_ticker_socket call — stands at 1, no max-attempts-exceeded
notification was ever sent, and the feed has not given up reconnecting; the
bound of 5 is never exceeded, contradicting the claimed single Failed
notification and terminal Failed state. -/
theorem feed_reconnect_never_gives_up :
    feed_run 6 { reconnect_attempts := 0, failed_notices := 0, gave_up := false } =
      { reconnect_attempts := 0, failed_notices := 0, gave_up := false } ∧
    (feed_run 6 { reconnect_attempts := 0, failed_notices := 0, gave_up := false
      }).failed_notices = 0 := by
  decide

/-- Claim C1 (evaluation at the failing input): a Long position with entry 100
and quantity 10 on a tick at 101 meets the first ladder level (profit 1.0,
fraction 0.3); the claim expects a partial close of 3 units leaving quantity
7, but the code's call raises AttributeError, so no close is submitted and the
quantity stays 10. -/
theorem ladder_level_met_closes_nothing :
    find_level (pnl_percent ⟨"long", 10, 100, 98, 103⟩ 101) TradingConfig.CLOSE_LEVELS =
      some (1, 3/10) ∧
    ladder_step "BTCUSDT" ⟨"long", 10, 100, 98, 103⟩ 101 =
      Except.error PyError.attrError ∧
    ladder_tick "BTCUSDT" ⟨"long", 10, 100, 98, 103⟩ 101 =
      (⟨"long", 10, 100, 98, 103⟩, []) := by
  have hf : find_level (pnl_percent ⟨"long", 10, 100, 98, 103⟩ 101)
      TradingConfig.CLOSE_LEVELS = some (1, 3/10) := by
    norm_num [find_level, pnl_percent, TradingConfig.CLOSE_LEVELS]
  have hs : ladder_step "BTCUSDT" ⟨"long", 10, 100, 98, 103⟩ 101 =
      Except.error PyError.attrError := by
    unfold ladder_step
    rw [hf]; rfl
  refine ⟨hf, hs, ?_⟩
  unfold ladder_tick
  rw [hs]

/-- If some ladder level's threshold is met, find_level returns a level. -/
theorem find_level_of_met (p : ℚ) (L : List (ℚ × ℚ))
    (h : ∃ l ∈ L, l.1 ≤ p) : ∃ l2, find_level p L = some l2 := by
  induction L with
  | nil => simp at h
  | cons a as ih =>
      unfold find_level
      by_cases hc : a.1 ≤ p
      · exact ⟨a, if_pos hc⟩
      · rw [if_neg hc]
        apply ih
        rcases h with ⟨l, hl, hle⟩
        rcases List.mem_cons.mp hl with rfl | hmem
        · exact absurd hle hc
        · exact ⟨l, hmem, hle⟩

/-- Claim C2: on any tick meeting a ladder level's threshold for an open
position, the attempted partial close raises AttributeError (RiskManager
defines no partial_close_position method), the tick handler's catch-all
absorbs it, no close is submitted, and the tracked quantity is unchanged. -/
theorem ladder_close_attr_error (symbol : String) (position : Position) (price : ℚ)
    (hlvl : ∃ l ∈ TradingConfig.CLOSE_LEVELS, l.1 ≤ pnl_percent position price) :
    ("partial_close_position" ∈ risk_manager_methods → False) ∧
    ladder_step symbol position price = Except.error PyError.attrError ∧
    ladder_tick symbol position price = (position, []) := by
  obtain ⟨l2, hf⟩ := find_level_of_met _ _ hlvl
  have hstep : ladder_step symbol position price = Except.error PyError.attrError := by
    unfold ladder_step
    rw [hf]; rfl
  refine ⟨by decide, hstep, ?_⟩
  unfold ladder_tick
  rw [hstep]

/-- Witness for ladder_close_attr_error at entry 100, quantity 10, tick 102. -/
theorem ladder_close_attr_error_witness :
    ladder_tick "ETHUSDT" ⟨"long", 10, 100, 98, 103⟩ 102 =
      (⟨"long", 10, 100, 98, 103⟩, []) :=
  (ladder_close_attr_error "ETHUSDT" ⟨"long", 10, 100, 98, 103⟩ 102
    ⟨(1, 3/10), by norm_num [TradingConfig.CLOSE_LEVELS, pnl_percent]⟩).2.2

/-- check_alert leaves any alert whose direction is neither "above" nor
"below" untouched. -/
theorem check_alert_other_direction (cp : ℚ) (a : PriceAlert)
    (h1 : a.direction ≠ "above") (h2 : a.direction ≠ "below") :
    check_alert cp a = a := by
  unfold check_alert
  rw [if_neg]
  rintro ⟨-, ⟨hd, -⟩ | ⟨hd, -⟩⟩
  · exact h1 hd
  · exact h2 hd

/-- A single alert with direction "both" survives any tick sequence unchanged. -/
theorem run_price_alerts_single_both (a : PriceAlert) (h : a.direction = "both")
    (prices : List ℚ) : run_price_alerts [a] prices = [a] := by
  induction prices with
  | nil => rfl
  | cons p ps ih =>
      have hstep : check_price_alerts [a] p = [a] := by
        unfold check_price_alerts
        rw [List.map_singleton, check_alert_other_direction]
        · rw [h]; decide
        · rw [h]; decide
      have : run_price_alerts [a] (p :: ps) = run_price_alerts (check_price_alerts [a] p) ps := rfl
      rw [this, hstep, ih]

/-- Claim C10: an alert created with direction "both" (as the high-volatility
monitor creates them) is never marked triggered by check_price_alerts under
any price sequence; it persists with triggered = false. -/
theorem both_direction_alert_never_triggered (p : ℚ) (msg : String)
    (prices : List ℚ) :
    ∀ a ∈ run_price_alerts [add_price_alert p "both" msg] prices,
      a.triggered = false := by
  intro a ha
  rw [run_price_alerts_single_both _ rfl] at ha
  rcases List.mem_singleton.mp ha with rfl
  rfl

/-- Witness for both_direction_alert_never_triggered on a concrete alert and
tick sequence. -/
theorem both_direction_alert_witness :
    (add_price_alert 1 "both" "hv").triggered = false :=
  both_direction_alert_never_triggered 1 "hv" [2, 1/2]
    (add_price_alert 1 "both" "hv") (by decide)

/-- Claim C3 counterexample: Long entry 100, stop_loss 98; the favorable tick
101 initializes the trailing stop at 98, and on the following adverse tick 97
the stored stop price, 98, exceeds the current tick price — the claimed
"never exceeds the current tick price" fails. -/
theorem trailing_stop_above_price :
    (run_trailing ⟨"long", 10, 100, 98, 103⟩ [101, 97]).map TrailingStop.stop_price =
      some 98 ∧ (97:ℚ) < 98 := by
  constructor
  · norm_num [run_trailing, update_trailing_stop]
  · norm_num

/-- One trailing-stop step never lowers the stop price. -/
theorem trail_step_stop_mono (position : Position) (tr : TrailingStop) (p : ℚ) :
    tr.stop_price ≤ (trail_step position tr p).stop_price := by
  unfold trail_step update_trailing_stop
  dsimp only
  split_ifs with h1 h2 h3
  · exact le_of_lt h3
  · exact le_refl _
  · exact le_refl _
  · exact le_refl _

/-- A run of trailing-stop steps never lowers the stop price. -/
theorem trail_run_stop_mono (position : Position) (tr : TrailingStop)
    (ticks : List ℚ) : tr.stop_price ≤ (trail_run position tr ticks).stop_price := by
  induction ticks generalizing tr with
  | nil => exact le_refl _
  | cons p ps ih =>
      have h1 := trail_step_stop_mono position tr p
      have h2 := ih (trail_step position tr p)
      have h3 : trail_run position tr (p :: ps) =
          trail_run position (trail_step position tr p) ps := rfl
      rw [h3]
      exact le_trans h1 h2

/-- Invariant carried by a trailing stop: positive highest price, a stop price
within [0, highest], and a distance percent within [0, 100]. -/
def TrailInv (tr : TrailingStop) : Prop :=
  0 < tr.highest_price ∧ 0 ≤ tr.stop_price ∧ tr.stop_price ≤ tr.highest_price ∧
    0 ≤ tr.distance_percent ∧ tr.distance_percent ≤ 100

/-- Initialization establishes the invariant when the first tick price is
positive and the position's stop loss lies in [0, first tick price]. -/
theorem trail_init_inv (position : Position) (p1 : ℚ) (hp1 : 0 < p1)
    (h0 : 0 ≤ position.stop_loss) (h1 : position.stop_loss ≤ p1) :
    TrailInv (update_trailing_stop position none p1) := by
  unfold update_trailing_stop TrailInv
  dsimp only
  refine ⟨hp1, h0, h1, by positivity, ?_⟩
  rw [abs_of_nonneg (by linarith)]
  rw [div_mul_eq_mul_div, div_le_iff₀ hp1]
  nlinarith

/-- One step preserves the invariant. -/
theorem trail_step_inv (position : Position) (tr : TrailingStop) (p : ℚ)
    (h : TrailInv tr) : TrailInv (trail_step position tr p) := by
  obtain ⟨hh, hs0, hsh, hd0, hd100⟩ := h
  unfold trail_step update_trailing_stop TrailInv
  dsimp only
  split_ifs with h1 h2 h3
  · have hp : 0 < p := lt_trans hh h2
    refine ⟨hp, ?_, ?_, hd0, hd100⟩
    · have hf : 0 ≤ 1 - tr.distance_percent / 100 := by linarith
      positivity
    · nlinarith
  · exact ⟨lt_trans hh h2, hs0, le_trans hsh (le_of_lt h2), hd0, hd100⟩
  · exact ⟨hh, hs0, hsh, hd0, hd100⟩
  · exact ⟨hh, hs0, hsh, hd0, hd100⟩

/-- A run preserves the invariant. -/
theorem trail_run_inv (position : Position) (tr : TrailingStop) (ticks : List ℚ)
    (h : TrailInv tr) : TrailInv (trail_run position tr ticks) := by
  induction ticks generalizing tr with
  | nil => exact h
  | cons p ps ih =>
      have h3 : trail_run position tr (p :: ps) =
          trail_run position (trail_step position tr p) ps := rfl
      rw [h3]
      exact ih _ (trail_step_inv position tr p h)

/-- Claim C3 (amended): once initialized on a first tick with positive price
at or above the position's (nonnegative) stop loss, the trailing stop price is
monotonically non-decreasing over any subsequent tick sequence — it never
moves against a Long position's favor — and it never exceeds the highest
observed price (it can, however, exceed the current tick price after an
adverse tick, see the counterexample). -/
theorem trailing_stop_monotone (position : Position) (p1 : ℚ) (hp1 : 0 < p1)
    (h0 : 0 ≤ position.stop_loss) (h1 : position.stop_loss ≤ p1)
    (ticks rest : List ℚ) :
    (trail_run position (update_trailing_stop position none p1) ticks).stop_price ≤
      (trail_run position (update_trailing_stop position none p1)
        (ticks ++ rest)).stop_price ∧
    (trail_run position (update_trailing_stop position none p1)
        (ticks ++ rest)).stop_price ≤
      (trail_run position (update_trailing_stop position none p1)
        (ticks ++ rest)).highest_price := by
  have hfold : trail_run position (update_trailing_stop position none p1)
      (ticks ++ rest) =
      trail_run position
        (trail_run position (update_trailing_stop position none p1) ticks) rest := by
    unfold trail_run
    rw [List.foldl_append]
  constructor
  · rw [hfold]
    exact trail_run_stop_mono position _ rest
  · have hinv := trail_run_inv position _ (ticks ++ rest)
      (trail_init_inv position p1 hp1 h0 h1)
    exact hinv.2.2.1

/-- Witness for trailing_stop_monotone: Long entry 100, stop 98, first tick
100, then ticks [101] and [102, 97]. -/
theorem trailing_stop_monotone_witness :
    (trail_run ⟨"long", 10, 100, 98, 103⟩
        (update_trailing_stop ⟨"long", 10, 100, 98, 103⟩ none 100) [101]).stop_price ≤
      (trail_run ⟨"long", 10, 100, 98, 103⟩
        (update_trailing_stop ⟨"long", 10, 100, 98, 103⟩ none 100)
        ([101] ++ [102, 97])).stop_price ∧
    (trail_run ⟨"long", 10, 100, 98, 103⟩
        (update_trailing_stop ⟨"long", 10, 100, 98, 103⟩ none 100)
        ([101] ++ [102, 97])).stop_price ≤
      (trail_run ⟨"long", 10, 100, 98, 103⟩
        (update_trailing_stop ⟨"long", 10, 100, 98, 103⟩ none 100)
        ([101] ++ [102, 97])).highest_price :=
  trailing_stop_monotone ⟨"long", 10, 100, 98, 103⟩ 100 (by norm_num) (by norm_num)
    (by norm_num) [101] [102, 97]

/-- Claim C5 counterexample: a one-bar history neither raises nor yields a
clamped value — rolling(14).mean() is NaN, the NaN flows through the clamp
(Python min/max keep a NaN first argument), and the function returns
(NaN, NaN) (modelled (none, none)): not a value within
[MIN_STOP_LOSS, MAX_STOP_LOSS] and not the static fallback (2, 2). -/
theorem dynamic_stops_nan_short_history :
    calculate_dynamic_stops [⟨100, 99, 100⟩] = (none, none) := by
  norm_num [calculate_dynamic_stops, rollingMeanLast, trueRanges, trueRangesAux,
    pymin, pymax]

theorem trueRangesAux_length (c : ℚ) (bs : List Bar) :
    (trueRangesAux c bs).length = bs.length := by
  induction bs generalizing c with
  | nil => rfl
  | cons b bs ih => simp [trueRangesAux, ih]

theorem trueRanges_length (df : List Bar) : (trueRanges df).length = df.length := by
  cases df with
  | nil => rfl
  | cons b bs => simp [trueRanges, trueRangesAux_length]

/-- Claim C5 (amended): for any history of at least 14 bars with a nonzero
last close, the stop-loss percent is the ATR expression clamped into
[MIN_STOP_LOSS, MAX_STOP_LOSS] — hence always within that interval — with
take_profit_percent = 1.5 times it; an empty history (the fetch-failure case,
which raises) falls back to the static defaults; histories of 1-13 bars
return NaN (see the counterexample). -/
theorem dynamic_stops_clamped :
    (∀ (df : List Bar) (lb : Bar), 14 ≤ df.length → df.getLast? = some lb →
      lb.close ≠ 0 →
      ∃ s, calculate_dynamic_stops df = (some s, some (s * (3/2))) ∧
        TradingConfig.MIN_STOP_LOSS ≤ s ∧ s ≤ TradingConfig.MAX_STOP_LOSS) ∧
    calculate_dynamic_stops [] = (some STOP_LOSS_PERCENT, some TAKE_PROFIT_PERCENT) := by
  constructor
  · intro df lb h14 hl _hc
    have hlen : 14 ≤ (trueRanges df).length := by
      rw [trueRanges_length]; exact h14
    have hatr : rollingMeanLast 14 (trueRanges df) =
        some (((trueRanges df).drop ((trueRanges df).length - 14)).sum / (14:ℚ)) := by
      unfold rollingMeanLast
      rw [if_pos hlen]
      norm_num
    set m := ((trueRanges df).drop ((trueRanges df).length - 14)).sum / (14:ℚ) with hm
    set r := m * TradingConfig.ATR_MULTIPLIER / lb.close * 100 with hr
    refine ⟨max (min r TradingConfig.MAX_STOP_LOSS) TradingConfig.MIN_STOP_LOSS, ?_, ?_, ?_⟩
    · unfold calculate_dynamic_stops
      rw [hl]
      dsimp only
      rw [hatr]
      rfl
    · exact le_max_right _ _
    · apply max_le (le_trans (min_le_right _ _) (le_refl _))
      norm_num [TradingConfig.MIN_STOP_LOSS, TradingConfig.MAX_STOP_LOSS]

  · rfl

/-- Witness for dynamic_stops_clamped on 14 identical bars (high 100, low 99,
close 100): ATR 1, raw percent 2, clamped value 2, target 3. -/
theorem dynamic_stops_clamped_witness :
    ∃ s, calculate_dynamic_stops (List.replicate 14 ⟨100, 99, 100⟩) =
      (some s, some (s * (3/2))) ∧
      TradingConfig.MIN_STOP_LOSS ≤ s ∧ s ≤ TradingConfig.MAX_STOP_LOSS :=
  dynamic_stops_clamped.1 (List.replicate 14 ⟨100, 99, 100⟩) ⟨100, 99, 100⟩
    (by norm_num) (by norm_num [List.getLast?_replicate]) (by norm_num)

/-- Claim C4 counterexample: with volatility known at 150 and the position
count already at MAX_POSITIONS, the code's pipeline evaluates (and fails) the
volatility guard first, while the claim's ordering would evaluate (and fail)
the open-position count first and never reach volatility: the evaluation
traces differ, so the claimed check order is not the code's order. -/
theorem entry_gate_order_differs :
    (entry_gate (some 150) 3 ⟨some (2000000, 1), some (1, 1), some (1, 10)⟩).2 =
      [CheckTag.volatility] ∧
    (can_enter_spec (some 150) 3 ⟨some (2000000, 1), some (1, 1), some (1, 10)⟩).2 =
      [CheckTag.posCount] ∧
    [CheckTag.volatility] ≠ [CheckTag.posCount] := by
  refine ⟨?_, ?_, by decide⟩
  · norm_num [entry_gate]
  · norm_num [can_enter_spec, TradingConfig.MAX_POSITIONS]

theorem check_entry_conditions_true_iff (open_count : Nat) (data : ExchangeData) :
    (check_entry_conditions open_count data).1 = true ↔
      (open_count < TradingConfig.MAX_POSITIONS ∧
       (∃ vp, data.ticker_volume = some vp ∧
         TradingConfig.MIN_VOLUME_USD ≤ vp.1 * vp.2) ∧
       (∃ ab, data.order_book = some ab ∧ ab.2 ≠ 0 ∧
         (ab.1 - ab.2) / ab.2 * 100 ≤ TradingConfig.MAX_SPREAD_PERCENT)) := by
  obtain ⟨tv, ob, ac⟩ := data
  unfold check_entry_conditions
  rcases tv with _ | vp <;> rcases ob with _ | ab <;> dsimp only <;>
    split_ifs <;> simp_all

theorem check_margin_usage_true_iff (data : ExchangeData) :
    check_margin_usage data = true ↔
      ∃ mw, data.account = some mw ∧ mw.2 ≠ 0 ∧ mw.1 / mw.2 ≤ 4/5 := by
  obtain ⟨tv, ob, ac⟩ := data
  unfold check_margin_usage
  rcases ac with _ | mw
  · simp
  · dsimp only
    split_ifs <;> simp_all

theorem check_entry_conditions_trace (open_count : Nat) (data : ExchangeData) :
    (check_entry_conditions open_count data).2 <+:
      [CheckTag.posCount, CheckTag.volume, CheckTag.spread] := by
  obtain ⟨tv, ob, ac⟩ := data
  unfold check_entry_conditions
  rcases tv with _ | vp <;> rcases ob with _ | ab <;> dsimp only <;> split_ifs <;>
    first
      | exact ⟨[CheckTag.volume, CheckTag.spread], rfl⟩
      | exact ⟨[CheckTag.spread], rfl⟩
      | exact ⟨[], rfl⟩

theorem entry_gate_rest_true_iff (open_count : Nat) (data : ExchangeData) :
    (entry_gate_rest open_count data).1 = true ↔
      ((∃ mw, data.account = some mw ∧ mw.2 ≠ 0 ∧ mw.1 / mw.2 ≤ 4/5) ∧
       (check_entry_conditions open_count data).1 = true) := by
  unfold entry_gate_rest
  split_ifs with hm
  · rw [check_margin_usage_true_iff] at hm
    simp [hm]
  · rw [check_margin_usage_true_iff] at hm
    simp [hm]

theorem entry_gate_rest_trace (open_count : Nat) (data : ExchangeData) :
    (entry_gate_rest open_count data).2 <+: [CheckTag.volatility, CheckTag.margin,
      CheckTag.posCount, CheckTag.volume, CheckTag.spread] := by
  unfold entry_gate_rest
  split_ifs
  · obtain ⟨t, ht⟩ := check_entry_conditions_trace open_count data
    exact ⟨t, by simp [← ht]⟩
  · exact ⟨[CheckTag.posCount, CheckTag.volume, CheckTag.spread], rfl⟩

/-- Claim C4 (amended): the code's pre-entry pipeline passes exactly when
volatility (when known) is at most 100, the margin ratio is at most 0.8,
fewer than MAX_POSITIONS positions are open, the 24h quote volume is at least
MIN_VOLUME_USD, and the spread is at most MAX_SPREAD_PERCENT — every exchange
fetch failure (a none field) failing closed — and the checks are evaluated in
the order volatility, margin, position count, volume, spread, short-circuiting
at the first failure (the trace is always an initial segment of that order). -/
theorem entry_gate_characterization (vol : Option ℚ) (open_count : Nat)
    (data : ExchangeData) :
    ((entry_gate vol open_count data).1 = true ↔
      ((∀ v, vol = some v → v ≤ 100) ∧
       (∃ mw, data.account = some mw ∧ mw.2 ≠ 0 ∧ mw.1 / mw.2 ≤ 4/5) ∧
       open_count < TradingConfig.MAX_POSITIONS ∧
       (∃ vp, data.ticker_volume = some vp ∧
         TradingConfig.MIN_VOLUME_USD ≤ vp.1 * vp.2) ∧
       (∃ ab, data.order_book = some ab ∧ ab.2 ≠ 0 ∧
         (ab.1 - ab.2) / ab.2 * 100 ≤ TradingConfig.MAX_SPREAD_PERCENT))) ∧
    (entry_gate vol open_count data).2 <+: [CheckTag.volatility, CheckTag.margin,
      CheckTag.posCount, CheckTag.volume, CheckTag.spread] := by
  have hrest := entry_gate_rest_true_iff open_count data
  rw [check_entry_conditions_true_iff] at hrest
  rcases vol with _ | v
  · constructor
    · unfold entry_gate
      rw [hrest]
      simp
    · exact entry_gate_rest_trace open_count data
  · constructor
    · unfold entry_gate
      dsimp only
      split_ifs with hv
      · simp only [false_iff]
        intro h
        have := h.1 v rfl
        linarith
      · rw [hrest]
        have hv2 : ∀ w : ℚ, some v = some w → w ≤ 100 := by
          intro w hw
          cases hw
          linarith
        simp [hv2]
    · unfold entry_gate
      dsimp only
      split_ifs
      · exact ⟨[CheckTag.margin, CheckTag.posCount, CheckTag.volume,
          CheckTag.spread], rfl⟩
      · exact entry_gate_rest_trace open_count data

/-- Claim C8 counterexample: gates pass, the market entry order fills, and the
stop-loss placement fails — yet the open-position registry stays empty: the
position is NOT left recorded as open, contradicting the claim; only the
(unprotected) entry order was submitted. -/
theorem open_position_not_recorded :
    (open_position "BTCUSDT" "long" 100
        ⟨true, true, 10000, (2, 3), true, some (1/2), false, true⟩ []).1 = [] ∧
    (open_position "BTCUSDT" "long" 100
        ⟨true, true, 10000, (2, 3), true, some (1/2), false, true⟩ []).2 =
      [⟨"BTCUSDT", "BUY", "MARKET", 150, none⟩] := by
  constructor
  · rfl
  · show [(⟨"BTCUSDT", "BUY", "MARKET",
      validate_position_size
        (TradingConfig.calculate_position_size 10000 100 (100 * (1 - 2/100))) 10000,
      none⟩ : Order)] = [⟨"BTCUSDT", "BUY", "MARKET", 150, none⟩]
    norm_num [validate_position_size, min_def, TradingConfig.calculate_position_size,
      TradingConfig.RISK_PER_TRADE, TradingConfig.LEVERAGE, abs_two]

/-- Claim C8 (amended): whenever the pre-entry gates pass and the market entry
order fills but the protective placement then fails (tick-size lookup failure,
stop-loss order failure, or take-profit order failure), open_position leaves
the open-position registry entirely unchanged — the filled entry is untracked
— the first and only guaranteed submission is the market entry, and no
take-profit order is ever among the submissions. -/
theorem open_position_unprotected_untracked (symbol side : String) (price : ℚ)
    (calls : OpenCalls) (reg : List (String × Position))
    (hm : calls.margin_ok = true) (he : calls.entry_ok = true)
    (heo : calls.entry_order_ok = true)
    (hfail : calls.tick_size = none ∨ calls.sl_order_ok = false ∨
      calls.tp_order_ok = false) :
    (open_position symbol side price calls reg).1 = reg ∧
    (∃ q, (open_position symbol side price calls reg).2.head? =
      some ⟨symbol, if side = "long" then "BUY" else "SELL", "MARKET", q, none⟩) ∧
    ∀ o ∈ (open_position symbol side price calls reg).2,
      o.order_type ≠ "TAKE_PROFIT_MARKET" := by
  obtain ⟨cm, ce, cb, cs, ceo, cts, cslo, ctpo⟩ := calls
  dsimp only at hm he heo hfail
  subst hm he heo
  unfold open_position
  dsimp only
  rcases cts with _ | ts
  · refine ⟨rfl, ⟨_, rfl⟩, ?_⟩
    intro o ho
    rcases List.mem_singleton.mp ho with rfl
    dsimp only
    decide
  · rcases hfail with hfail | hfail | hfail
    · exact absurd hfail (by simp)
    · subst hfail
      refine ⟨rfl, ⟨_, rfl⟩, ?_⟩
      intro o ho
      rcases List.mem_singleton.mp ho with rfl
      dsimp only
      decide
    · subst hfail
      rcases cslo with _ | _
      · refine ⟨rfl, ⟨_, rfl⟩, ?_⟩
        intro o ho
        rcases List.mem_singleton.mp ho with rfl
        dsimp only
        decide
      · refine ⟨rfl, ⟨_, rfl⟩, ?_⟩
        intro o ho
        rcases List.mem_cons.mp ho with rfl | ho2
        · dsimp only
          decide
        · rcases List.mem_singleton.mp ho2 with rfl
          dsimp only
          decide

/-- Witness for open_position_unprotected_untracked: entry fills, the
stop-loss placement fails. -/
theorem open_position_unprotected_witness :
    (open_position "ETHUSDT" "long" 100
        ⟨true, true, 10000, (2, 3), true, some (1/2), false, true⟩ []).1 = [] ∧
    (∃ q, (open_position "ETHUSDT" "long" 100
        ⟨true, true, 10000, (2, 3), true, some (1/2), false, true⟩ []).2.head? =
      some ⟨"ETHUSDT", if "long" = "long" then "BUY" else "SELL", "MARKET", q, none⟩) ∧
    ∀ o ∈ (open_position "ETHUSDT" "long" 100
        ⟨true, true, 10000, (2, 3), true, some (1/2), false, true⟩ []).2,
      o.order_type ≠ "TAKE_PROFIT_MARKET" :=
  open_position_unprotected_untracked "ETHUSDT" "long" 100
    ⟨true, true, 10000, (2, 3), true, some (1/2), false, true⟩ [] rfl rfl rfl
    (Or.inr (Or.inl rfl))

/-- Log-returns of a constant price list are all zero, whatever the log. -/
theorem log_returns_zero (lg : ℚ → ℚ) (c : ℚ) :
    ∀ xs : List ℚ, (∀ x ∈ xs, x = c) → ∀ y ∈ log_returns lg xs, y = 0 := by
  intro xs
  induction xs with
  | nil =>
      intro _ y hy
      simp [log_returns] at hy
  | cons a tl ih =>
      intro h y hy
      cases tl with
      | nil => simp [log_returns] at hy
      | cons b rest =>
          have hstep : log_returns lg (a :: b :: rest) =
              (lg b - lg a) :: log_returns lg (b :: rest) := rfl
          rw [hstep] at hy
          rcases List.mem_cons.mp hy with rfl | hmem
          · have ha : a = c := h a (by simp)
            have hb : b = c := h b (by simp)
            rw [ha, hb]
            ring
          · exact ih (fun x hx => h x (List.mem_cons_of_mem a hx)) y hmem

/-- Population variance of an all-zero list is zero. -/
theorem variance_pop_zero (xs : List ℚ) (h : ∀ x ∈ xs, x = 0) :
    variance_pop xs = 0 := by
  have hs : xs.sum = 0 := List.sum_eq_zero h
  have hm : list_mean xs = 0 := by
    unfold list_mean
    rw [hs]
    simp
  unfold variance_pop
  rw [hm]
  have hz : (xs.map fun x => (x - 0) ^ 2).sum = 0 := by
    apply List.sum_eq_zero
    intro y hy
    obtain ⟨x, hx, rfl⟩ := List.mem_map.mp hy
    rw [h x hx]
    ring
  rw [hz]
  simp

theorem appended_history_length (hist : List PriceSample) (price : ℚ) (ts : Nat)
    (h : 19 ≤ hist.length) : 20 ≤ (appended_history hist price ts).length := by
  unfold appended_history last_n
  dsimp only
  have hx : (hist ++ [({ price := price, timestamp := ts } : PriceSample)]).length =
      hist.length + 1 := by
    simp
  split_ifs with h1 <;> simp only [List.length_drop, hx] <;> omega

theorem appended_history_subset (hist : List PriceSample) (price : ℚ) (ts : Nat) :
    ∀ s ∈ appended_history hist price ts,
      s ∈ hist ++ [{ price := price, timestamp := ts }] := by
  unfold appended_history last_n
  dsimp only
  split_ifs with h1
  · exact fun s hs => List.drop_subset _ _ hs
  · exact fun s hs => hs

/-- What update_volatility does when at least 20 samples are present. -/
theorem update_volatility_spec (lg : ℚ → ℚ) (st : AnalyzerState)
    (h : 20 ≤ st.history.length) :
    (update_volatility lg st).1.history = st.history ∧
    (update_volatility lg st).1.volatility_sq =
      some (volatility_sq_of lg (last_n 20 (st.history.map PriceSample.price))) ∧
    ((update_volatility lg st).2 ≠ [] ↔
      10000 < volatility_sq_of lg (last_n 20 (st.history.map PriceSample.price))) := by
  unfold update_volatility
  rw [if_neg (by omega)]
  dsimp only
  refine ⟨?_, ?_, ?_⟩
  · split_ifs <;> rfl
  · split_ifs <;> rfl
  · split_ifs with hv
    · simpa using hv
    · simpa using hv

/-- Claim C9: recording a sample onto a history of at least 19 samples
recomputes the stored volatility from the last 20 stored samples' prices via
the (squared) stdev-of-log-returns formula; for a constant price series the
computed volatility is 0; and a volatility alert is emitted exactly when the
computed volatility exceeds 100 (squared: 10000). -/
theorem volatility_recompute (lg : ℚ → ℚ) (st : AnalyzerState) (price : ℚ)
    (ts : Nat) (h20 : 19 ≤ st.history.length) :
    (update_price_data lg st price ts).1.volatility_sq =
      some (volatility_sq_of lg
        (last_n 20 ((update_price_data lg st price ts).1.history.map
          PriceSample.price))) ∧
    ((update_price_data lg st price ts).2 ≠ [] ↔
      10000 < volatility_sq_of lg
        (last_n 20 ((update_price_data lg st price ts).1.history.map
          PriceSample.price))) ∧
    ((∀ s ∈ st.history, s.price = price) →
      (update_price_data lg st price ts).1.volatility_sq = some 0) := by
  have hlen := appended_history_length st.history price ts h20
  have hspec := update_volatility_spec lg
    { st with history := appended_history st.history price ts } hlen
  have hupd : update_price_data lg st price ts =
      update_volatility lg { st with history := appended_history st.history price ts } :=
    rfl
  obtain ⟨hh, hv, ha⟩ := hspec
  refine ⟨?_, ?_, ?_⟩
  · rw [hupd, hv, hh]
  · rw [hupd, hh] at *
    exact ha
  · intro hconst
    have hall : ∀ p ∈ last_n 20 ((appended_history st.history price ts).map
        PriceSample.price), p = price := by
      intro p hp
      have hp2 : p ∈ (appended_history st.history price ts).map PriceSample.price :=
        List.drop_subset _ _ hp
      obtain ⟨s, hs, rfl⟩ := List.mem_map.mp hp2
      have hs2 := appended_history_subset st.history price ts s hs
      rcases List.mem_append.mp hs2 with hs3 | hs3
      · exact hconst s hs3
      · rcases List.mem_singleton.mp hs3 with rfl
        rfl
    have hz : volatility_sq_of lg (last_n 20 ((appended_history st.history price
        ts).map PriceSample.price)) = 0 := by
      unfold volatility_sq_of
      rw [variance_pop_zero _ (log_returns_zero lg price _ hall)]
      ring
    rw [hupd, hv]
    dsimp only
    rw [hz]

/-- Witness for volatility_recompute: 19 constant samples at price 5, then a
20th sample at 5 — the recomputed volatility is 0 and no alert fires. -/
theorem volatility_recompute_witness :
    (update_price_data (fun x => x) ⟨List.replicate 19 ⟨5, 0⟩, none⟩ 5 1).1.volatility_sq =
      some (volatility_sq_of (fun x => x)
        (last_n 20 ((update_price_data (fun x => x)
          ⟨List.replicate 19 ⟨5, 0⟩, none⟩ 5 1).1.history.map PriceSample.price))) ∧
    ((update_price_data (fun x => x) ⟨List.replicate 19 ⟨5, 0⟩, none⟩ 5 1).2 ≠ [] ↔
      10000 < volatility_sq_of (fun x => x)
        (last_n 20 ((update_price_data (fun x => x)
          ⟨List.replicate 19 ⟨5, 0⟩, none⟩ 5 1).1.history.map PriceSample.price))) ∧
    ((∀ s ∈ (List.replicate 19 (⟨5, 0⟩ : PriceSample)), s.price = 5) →
      (update_price_data (fun x => x)
        ⟨List.replicate 19 ⟨5, 0⟩, none⟩ 5 1).1.volatility_sq = some 0) :=
  volatility_recompute (fun x => x) ⟨List.replicate 19 ⟨5, 0⟩, none⟩ 5 1 (by simp)

end Goat2
